import Mathlib

/-!
Verification of the dependency-graph extractor of the `suite` repository
(`src/suite/analyzer.py`) against its natural-language specification.

The Python code is shallowly embedded as follows.

* Python runtime objects (functions, modules, arbitrary attribute values) are
  identified by natural-number ids.  The ambient runtime is a `World` record of
  introspection primitives (`inspect.getdoc`, `inspect.getsource`,
  `inspect.getfile`, `inspect.getsourcelines`, `inspect.getmodule`,
  `getattr`/`hasattr`, `module.__dict__`, `callable`, truthiness) together with
  `ast.parse ∘ textwrap.dedent` viewed as a function from source text to a
  parsed module body.  Fallible primitives return `Except PyExc _`, where
  `PyExc` enumerates the exception classes the analyzer code distinguishes.
* The subset of the Python `ast` node language that the analyzed programs use
  is embedded as the mutual inductives `PyExpr`/`PyExprs` and
  `PyStmt`/`PyStmts` (explicit list spines so that the AST walker is
  structurally recursive and kernel-computable).  Node fields that are empty in
  every modeled program (decorator lists, argument defaults, keyword
  arguments, `while`/`for` else-blocks) are omitted; `ast.NodeVisitor`'s
  `generic_visit` over them would contribute nothing.
* Each function of `analyzer.py` is translated one-to-one, keeping its name.
  The recursion of `build_dependency_tree` is fueled; the wrapper
  `build_dependency_tree` supplies `max_depth - current_depth + 1` units of
  fuel, which is always sufficient (the code recurses only while
  `current_depth < max_depth`), so the `recursionError` out-of-fuel branch is
  unreachable from the wrapper.
* Python exceptions carry no state, but the mutated `visited` set is shared
  with the caller; the embedding therefore threads the current `visited` set
  through both the success and the error constructor.
-/

namespace Suite

set_option maxRecDepth 100000

/-- The Python exception classes distinguished by the analyzer:
`TypeError` and `OSError` are the ones its `except` clauses name;
`parseError` stands for `SyntaxError`/`IndentationError` raised by
`ast.parse`; `recursionError` is the out-of-fuel marker of the embedding
(unreachable from `build_dependency_tree`, see `build_fuel_sufficient`). -/
inductive PyExc where
  | typeError
  | osError
  | parseError
  | recursionError
  deriving DecidableEq

/- Python `ast` expression nodes used by the analyzed programs.
Constructors correspond to `ast.Name`, `ast.Attribute`, `ast.Call`
(`keywords` always empty in modeled programs), `ast.Lambda` (arguments carry
no AST children in modeled programs), `ast.BinOp` (the `op` node has no
children), `ast.UnaryOp`, `ast.Compare` (left operand and comparator list),
and `ast.Constant`. -/
mutual
inductive PyExpr where
  | name (id : String)
  | attr (value : PyExpr) (attrName : String)
  | call (func : PyExpr) (args : PyExprs)
  | lam (body : PyExpr)
  | binop (left : PyExpr) (right : PyExpr)
  | unary (operand : PyExpr)
  | compare (left : PyExpr) (comparators : PyExprs)
  | const
inductive PyExprs where
  | nil
  | cons (head : PyExpr) (tail : PyExprs)
end

/- Python `ast` statement nodes used by the analyzed programs:
`ast.FunctionDef` (argument defaults and decorator list empty in modeled
programs), `ast.Return`, `ast.Assign`, `ast.While` (else-block empty in
modeled programs), `ast.If`, and `ast.Expr`. -/
mutual
inductive PyStmt where
  | functionDef (fname : String) (body : PyStmts)
  | ret (value : Option PyExpr)
  | assign (targets : PyExprs) (value : PyExpr)
  | whileS (test : PyExpr) (body : PyStmts)
  | ifS (test : PyExpr) (body : PyStmts) (orelse : PyStmts)
  | exprStmt (value : PyExpr)
inductive PyStmts where
  | nil
  | cons (head : PyStmt) (tail : PyStmts)
end

/-- Convert an ordinary list of expressions to the explicit spine type. -/
def exprsOf : List PyExpr → PyExprs
  | [] => .nil
  | e :: es => .cons e (exprsOf es)

/-- Convert an ordinary list of statements to the explicit spine type. -/
def stmtsOf : List PyStmt → PyStmts
  | [] => .nil
  | s :: ss => .cons s (stmtsOf ss)

/-- The record produced for every analyzed callable: the pydantic model
`FunctionInfo` of `analyzer.py` (fields `name`, `docstring`, `source`,
`source_file`, `line_number`, `dependencies`). -/
inductive FunctionInfo where
  | mk (name : String) (docstring : Option String) (source : Option String)
      (source_file : Option String) (line_number : Option Nat)
      (dependencies : List FunctionInfo)

/-- Field accessor for `FunctionInfo.name`. -/
def FunctionInfo.name : FunctionInfo → String
  | .mk n _ _ _ _ _ => n

/-- Field accessor for `FunctionInfo.docstring`. -/
def FunctionInfo.docstring : FunctionInfo → Option String
  | .mk _ d _ _ _ _ => d

/-- Field accessor for `FunctionInfo.source`. -/
def FunctionInfo.source : FunctionInfo → Option String
  | .mk _ _ s _ _ _ => s

/-- Field accessor for `FunctionInfo.source_file`. -/
def FunctionInfo.source_file : FunctionInfo → Option String
  | .mk _ _ _ f _ _ => f

/-- Field accessor for `FunctionInfo.line_number`. -/
def FunctionInfo.line_number : FunctionInfo → Option Nat
  | .mk _ _ _ _ l _ => l

/-- Field accessor for `FunctionInfo.dependencies`. -/
def FunctionInfo.dependencies : FunctionInfo → List FunctionInfo
  | .mk _ _ _ _ _ deps => deps

/-- Replace the `dependencies` field (the in-place `append`s performed by
`build_dependency_tree`, seen at the end of the loop). -/
def FunctionInfo.withDependencies : FunctionInfo → List FunctionInfo → FunctionInfo
  | .mk n d s f l _, deps => .mk n d s f l deps

/-- The ambient Python runtime, restricted to the introspection primitives the
analyzer uses.  Objects (functions, modules, attribute values) are ids of type
`Nat`.  `getattrO m k = none` models `hasattr(m, k) == False`
(equivalently `getattr` raising `AttributeError`). `parseDedent` is
`ast.parse(textwrap.dedent(-))`, returning the body of the parsed
`ast.Module`. -/
structure World where
  /-- `func.__name__` -/
  pyName : Nat → String
  /-- `inspect.getdoc(func)`: `none` when the callable has no docstring. -/
  getdoc : Nat → Except PyExc (Option String)
  /-- `inspect.getsource(func)`: raises `TypeError` for builtins and
  partial/bound constructs, `OSError` when the source text of a Python-level
  function cannot be retrieved. -/
  getsource : Nat → Except PyExc String
  /-- `inspect.getfile(func)` -/
  getfile : Nat → Except PyExc String
  /-- the line-number component of `inspect.getsourcelines(func)` -/
  getsourcelines : Nat → Except PyExc Nat
  /-- `ast.parse(textwrap.dedent(s)).body` -/
  parseDedent : String → Except PyExc PyStmts
  /-- `inspect.getmodule(func)` (assumed non-`None` for analyzed callables) -/
  getmodule : Nat → Nat
  /-- `getattr(obj, key)` when `hasattr(obj, key)`, else `none` -/
  getattrO : Nat → String → Option Nat
  /-- `module.__dict__.items()` in iteration order -/
  moduleDict : Nat → List (String × Nat)
  /-- Python truthiness of the object -/
  truthy : Nat → Bool
  /-- `callable(obj)` -/
  isCallable : Nat → Bool

/-- `set.add` on the accumulated call-name set of `FunctionCallVisitor`,
modeled as an insertion-ordered duplicate-free list. -/
def addCall (acc : List String) (n : String) : List String :=
  if n ∈ acc then acc else acc ++ [n]

/-- The names `FunctionCallVisitor.visit_Call` adds for a `Call` node whose
`func` field is the given expression: the id of an `ast.Name`, the dotted pair
for an `ast.Attribute` whose value is an `ast.Name`, nothing otherwise. -/
def callTargets : PyExpr → List String
  | .name id => [id]
  | .attr (.name vid) a => [vid ++ "." ++ a]
  | _ => []

/- `FunctionCallVisitor` run over expressions: `visit_Call` records the call
target of every `Call` node and then `generic_visit` recurses into all child
nodes in field order (in particular into `Lambda` bodies). -/
mutual
def visitExpr : List String → PyExpr → List String
  | acc, .name _ => acc
  | acc, .attr v _ => visitExpr acc v
  | acc, .call f args => visitExprs (visitExpr ((callTargets f).foldl addCall acc) f) args
  | acc, .lam b => visitExpr acc b
  | acc, .binop l r => visitExpr (visitExpr acc l) r
  | acc, .unary e => visitExpr acc e
  | acc, .compare l rs => visitExprs (visitExpr acc l) rs
  | acc, .const => acc
def visitExprs : List String → PyExprs → List String
  | acc, .nil => acc
  | acc, .cons e es => visitExprs (visitExpr acc e) es
end

/- `FunctionCallVisitor` run over statements (`generic_visit` in field
order). -/
mutual
def visitStmt : List String → PyStmt → List String
  | acc, .functionDef _ body => visitStmts acc body
  | acc, .ret none => acc
  | acc, .ret (some e) => visitExpr acc e
  | acc, .assign targets value => visitExpr (visitExprs acc targets) value
  | acc, .whileS test body => visitStmts (visitExpr acc test) body
  | acc, .ifS test body orelse => visitStmts (visitStmts (visitExpr acc test) body) orelse
  | acc, .exprStmt e => visitExpr acc e
def visitStmts : List String → PyStmts → List String
  | acc, .nil => acc
  | acc, .cons s ss => visitStmts (visitStmt acc s) ss
end

/-- `FunctionCallVisitor().visit(tree)` on a parsed module followed by reading
off `function_calls`. -/
def visitModule (body : PyStmts) : List String :=
  visitStmts [] body

/-- `extract_docstring` of `analyzer.py`: `inspect.getdoc`, returning the
empty string when it raises `TypeError`. -/
def extract_docstring (w : World) (func : Nat) : Except PyExc (Option String) :=
  match w.getdoc func with
  | .ok d => .ok d
  | .error .typeError => .ok (some "")
  | .error e => .error e

/-- `extract_source` of `analyzer.py`: `inspect.getsource`, returning `None`
when it raises `TypeError` (methods implemented in C); any other exception
propagates. -/
def extract_source (w : World) (func : Nat) : Except PyExc (Option String) :=
  match w.getsource func with
  | .ok s => .ok (some s)
  | .error .typeError => .ok none
  | .error e => .error e

/-- `extract_source_file` of `analyzer.py`: `inspect.getfile`, `None` on
`TypeError`. -/
def extract_source_file (w : World) (func : Nat) : Except PyExc (Option String) :=
  match w.getfile func with
  | .ok f => .ok (some f)
  | .error .typeError => .ok none
  | .error e => .error e

/-- `extract_line_number` of `analyzer.py`: `inspect.getsourcelines(func)[1]`,
`None` on `TypeError`. -/
def extract_line_number (w : World) (func : Nat) : Except PyExc (Option Nat) :=
  match w.getsourcelines func with
  | .ok l => .ok (some l)
  | .error .typeError => .ok none
  | .error e => .error e

/-- `extract_function_info` of `analyzer.py`: builds the `FunctionInfo` from
the four extractors (evaluated in source order); an uncaught exception from
any of them propagates. -/
def extract_function_info (w : World) (func : Nat) : Except PyExc FunctionInfo :=
  match extract_docstring w func with
  | .error e => .error e
  | .ok docstring =>
    match extract_source w func with
    | .error e => .error e
    | .ok source =>
      match extract_source_file w func with
      | .error e => .error e
      | .ok source_file =>
        match extract_line_number w func with
        | .error e => .error e
        | .ok line_number =>
          .ok (.mk (w.pyName func) docstring source source_file line_number [])

/-- `find_function_calls` of `analyzer.py`: extract the source (`None` is
converted from `TypeError` only), and if it is truthy (non-`None`, non-empty)
parse the dedented text and run the visitor; otherwise return the empty set.
A parse failure propagates (there is no handler around `ast.parse`). -/
def find_function_calls (w : World) (func : Nat) : Except PyExc (List String) :=
  match extract_source w func with
  | .error e => .error e
  | .ok (some source) =>
    if source ≠ "" then
      match w.parseDedent source with
      | .error e => .error e
      | .ok tree => .ok (visitModule tree)
    else .ok []
  | .ok none => .ok []

/-- Python `str.split` on the dot character (`name.split(".")`):
`"o.m" ↦ ["o", "m"]`, `"g" ↦ ["g"]`, `"" ↦ [""]`. -/
def splitDotAux : List Char → List Char → List String
  | acc, [] => [String.mk acc.reverse]
  | acc, c :: cs =>
    if c = '.' then String.mk acc.reverse :: splitDotAux [] cs
    else splitDotAux (c :: acc) cs

/-- See `splitDotAux`. -/
def splitDot (s : String) : List String :=
  splitDotAux [] s.toList

/-- The `for part in parts` walk of `get_function_by_name`: successively
resolve each segment as an attribute of the previous object, starting from the
scope object itself; `None` as soon as a segment is missing. -/
def walkParts (w : World) : Nat → List String → Option Nat
  | obj, [] => some obj
  | obj, part :: rest =>
    match w.getattrO obj part with
    | some next => walkParts w next rest
    | none => none

/-- The final `for key, value in module.__dict__.items()` scan of
`get_function_by_name`: the first binding whose key equals the candidate and
whose value is callable. -/
def scanDict (w : World) (name : String) : List (String × Nat) → Option Nat
  | [] => none
  | (key, value) :: rest =>
    if key == name && w.isCallable value then some value
    else scanDict w name rest

/-- `get_function_by_name` of `analyzer.py`: direct `hasattr`/`getattr`
lookup; else, if the candidate contains a dot, the dotted attribute walk
(whose failure is returned directly); else the linear `__dict__` scan. -/
def get_function_by_name (w : World) (name : String) (module : Nat) : Option Nat :=
  match w.getattrO module name with
  | some v => some v
  | none =>
    let parts := splitDot name
    if parts.length > 1 then walkParts w module parts
    else scanDict w name (w.moduleDict module)

/-- Modelled from the spec: the Symbol Resolver as §4.2 and claim C7 word it —
three tiers tried in order with the first match winning: direct lookup of the
whole candidate string, then the dotted traversal, then the linear scan of the
scope's bindings; not-found only if all three fail.  Stated separately from
`get_function_by_name` (the code) so the two can be compared. -/
def resolver_spec (w : World) (name : String) (module : Nat) : Option Nat :=
  match w.getattrO module name with
  | some v => some v
  | none =>
    match walkParts w module (splitDot name) with
    | some v => some v
    | none => scanDict w name (w.moduleDict module)

/-- The visited-set key `f"{func_info.source_file}:{func_info.name}"`
(a `None` source file prints as the string `"None"`). -/
def keyOf (info : FunctionInfo) : String :=
  (match info.source_file with | some s => s | none => "None") ++ ":" ++ info.name

/-- The body of the `for call_name in function_calls` loop of
`build_dependency_tree`, abstracted over the recursive call: resolve the name
(outside the `try`), check `dep_func and callable(dep_func)`, recurse, append
the result, catching exactly `OSError` and `TypeError` (any other exception
propagates).  The `visited` set mutated by a failed recursive call remains
visible, as in Python, because errors carry the current set. -/
def buildStep (w : World)
    (recurse : Nat → List String → Except (PyExc × List String) (FunctionInfo × List String))
    (module : Nat)
    (acc : Except (PyExc × List String) (List FunctionInfo × List String))
    (call_name : String) : Except (PyExc × List String) (List FunctionInfo × List String) :=
  match acc with
  | .error ev => .error ev
  | .ok (deps, visited) =>
    match get_function_by_name w call_name module with
    | none => .ok (deps, visited)
    | some dep_func =>
      if w.truthy dep_func && w.isCallable dep_func then
        match recurse dep_func visited with
        | .ok (dep_info, visited') => .ok (deps ++ [dep_info], visited')
        | .error (.osError, visited') => .ok (deps, visited')
        | .error (.typeError, visited') => .ok (deps, visited')
        | .error ev => .error ev
      else .ok (deps, visited)

/-- `build_dependency_tree` of `analyzer.py`, with explicit recursion fuel
(first argument) and the `visited` set threaded explicitly (it is carried by
errors as well, since the Python set object is shared with the caller).
Steps, in source order: `extract_function_info` (whose exception propagates),
the visited check (cycle guard, returning the record as-is), `visited.add`,
the depth guard, `find_function_calls` (whose exception propagates),
`inspect.getmodule`, then the dependency loop (`buildStep`). -/
def build (w : World) :
    Nat → Nat → Nat → Nat → List String →
    Except (PyExc × List String) (FunctionInfo × List String)
  | 0, _, _, _, visited => .error (.recursionError, visited)
  | fuel + 1, func, max_depth, current_depth, visited =>
    match extract_function_info w func with
    | .error e => .error (e, visited)
    | .ok func_info =>
      let func_key := keyOf func_info
      if func_key ∈ visited then .ok (func_info, visited)
      else
        let visited' := func_key :: visited
        if current_depth ≥ max_depth then .ok (func_info, visited')
        else
          match find_function_calls w func with
          | .error e => .error (e, visited')
          | .ok function_calls =>
            match function_calls.foldl
                (buildStep w (fun dep vis => build w fuel dep max_depth (current_depth + 1) vis)
                  (w.getmodule func))
                (.ok ([], visited')) with
            | .error ev => .error ev
            | .ok (deps, visited'') => .ok (func_info.withDependencies deps, visited'')

/-- `build_dependency_tree(func, max_depth=2, current_depth=0, visited=None)`:
the fueled recursion with `max_depth - current_depth + 1` units of fuel, which
is sufficient because the code only recurses while
`current_depth < max_depth` (see `build_fuel_sufficient`). -/
def build_dependency_tree (w : World) (func : Nat) (max_depth : Nat := 2)
    (current_depth : Nat := 0) (visited : List String := []) :
    Except (PyExc × List String) (FunctionInfo × List String) :=
  build w (max_depth - current_depth + 1) func max_depth current_depth visited

/-! ### Helper lemmas about the embedded definitions -/

/-- The current state of the `visited` set after a call of `build`, whether it
returned or raised (the Python set object is shared with the caller either
way). -/
def visitedOf : Except (PyExc × List String) (FunctionInfo × List String) → List String
  | .error ev => ev.2
  | .ok p => p.2

/-- As `visitedOf`, for the accumulator of the dependency loop. -/
def visitedOfAcc : Except (PyExc × List String) (List FunctionInfo × List String) → List String
  | .error ev => ev.2
  | .ok p => p.2

@[simp] theorem visitedOf_ok (p : FunctionInfo × List String) : visitedOf (.ok p) = p.2 := rfl

@[simp] theorem visitedOf_error (ev : PyExc × List String) : visitedOf (.error ev) = ev.2 := rfl

@[simp] theorem visitedOfAcc_ok (p : List FunctionInfo × List String) :
    visitedOfAcc (.ok p) = p.2 := rfl

@[simp] theorem visitedOfAcc_error (ev : PyExc × List String) :
    visitedOfAcc (.error ev) = ev.2 := rfl

@[simp] theorem withDependencies_dependencies (i : FunctionInfo) (deps : List FunctionInfo) :
    (i.withDependencies deps).dependencies = deps := by
  cases i; rfl

@[simp] theorem withDependencies_name (i : FunctionInfo) (deps : List FunctionInfo) :
    (i.withDependencies deps).name = i.name := by
  cases i; rfl

theorem withDependencies_self (i : FunctionInfo) (h : i.dependencies = []) :
    i.withDependencies [] = i := by
  cases i with
  | mk n d s f l deps =>
    simp only [FunctionInfo.dependencies] at h
    simp [FunctionInfo.withDependencies, h]

/-- Every record returned by `extract_function_info` has an empty
`dependencies` list (the caller populates it afterwards). -/
theorem extract_function_info_deps (w : World) (f : Nat) (info : FunctionInfo)
    (h : extract_function_info w f = .ok info) : info.dependencies = [] := by
  unfold extract_function_info at h
  repeat' split at h
  any_goals exact Except.noConfusion h
  injection h with h2
  subst h2
  rfl

/-- Every FunctionRecord of the tree is at most `d` edges below the root:
either there are no dependencies, or `d` is positive and every dependency is
at most `d - 1` edges below its own root. -/
inductive DepthLe : Nat → FunctionInfo → Prop
  | mk (d : Nat) (info : FunctionInfo)
      (hpos : ∀ i ∈ info.dependencies, 0 < d)
      (h : ∀ i ∈ info.dependencies, DepthLe (d - 1) i) : DepthLe d info

theorem depthLe_of_deps_nil (d : Nat) (info : FunctionInfo) (h : info.dependencies = []) :
    DepthLe d info :=
  ⟨d, info, by simp [h], by simp [h]⟩

/-- The dependency loop keeps an already-raised error unchanged. -/
theorem foldl_buildStep_error (w : World)
    (recurse : Nat → List String → Except (PyExc × List String) (FunctionInfo × List String))
    (module : Nat) (ev : PyExc × List String) :
    ∀ calls : List String,
      calls.foldl (buildStep w recurse module) (.error ev) = .error ev := by
  intro calls
  induction calls with
  | nil => rfl
  | cons c rest ih => simpa [List.foldl, buildStep] using ih

/-- One loop step either keeps the dependency list, or appends exactly the
record returned by a successful recursive call on the current visited set. -/
theorem buildStep_ok_cases (w : World)
    (recurse : Nat → List String → Except (PyExc × List String) (FunctionInfo × List String))
    (module : Nat) (deps0 : List FunctionInfo) (v0 : List String) (n : String)
    (deps1 : List FunctionInfo) (v1 : List String)
    (h : buildStep w recurse module (.ok (deps0, v0)) n = .ok (deps1, v1)) :
    deps1 = deps0 ∨
      ∃ info dep, recurse dep v0 = .ok (info, v1) ∧ deps1 = deps0 ++ [info] := by
  simp only [buildStep] at h
  split at h
  · left
    simp only [Except.ok.injEq, Prod.mk.injEq] at h
    exact h.1.symm
  · rename_i depf hres
    split at h
    · split at h
      · rename_i info v' hcall
        right
        simp only [Except.ok.injEq, Prod.mk.injEq] at h
        exact ⟨info, depf, by rw [hcall, h.2], h.1.symm⟩
      · left
        simp only [Except.ok.injEq, Prod.mk.injEq] at h
        exact h.1.symm
      · left
        simp only [Except.ok.injEq, Prod.mk.injEq] at h
        exact h.1.symm
      · simp at h
    · left
      simp only [Except.ok.injEq, Prod.mk.injEq] at h
      exact h.1.symm

/-- If every discovered name either fails to resolve or resolves to a falsy or
non-callable object, the dependency loop is a no-op. -/
theorem foldl_buildStep_skip (w : World)
    (recurse : Nat → List String → Except (PyExc × List String) (FunctionInfo × List String))
    (module : Nat) :
    ∀ (calls : List String) (deps0 : List FunctionInfo) (v0 : List String),
      (∀ n ∈ calls, ∀ v, get_function_by_name w n module = some v →
        (w.truthy v && w.isCallable v) = false) →
      calls.foldl (buildStep w recurse module) (.ok (deps0, v0)) = .ok (deps0, v0) := by
  intro calls
  induction calls with
  | nil => intro deps0 v0 _; rfl
  | cons n rest ih =>
    intro deps0 v0 h
    simp only [List.foldl]
    have hstep : buildStep w recurse module (.ok (deps0, v0)) n = .ok (deps0, v0) := by
      simp only [buildStep]
      split
      · rfl
      · rename_i depf hres
        simp [h n (by simp) depf hres]
    rw [hstep]
    exact ih deps0 v0 (fun m hm v hv => h m (by simp [hm]) v hv)

/-- The dependency loop only grows the visited set, also through caught
failures, provided the recursive call does. -/
theorem foldl_buildStep_vis_mono (w : World)
    (recurse : Nat → List String → Except (PyExc × List String) (FunctionInfo × List String))
    (module : Nat)
    (hrec : ∀ dep vis k, k ∈ vis → k ∈ visitedOf (recurse dep vis)) :
    ∀ (calls : List String) (acc) (k : String),
      k ∈ visitedOfAcc acc →
      k ∈ visitedOfAcc (calls.foldl (buildStep w recurse module) acc) := by
  intro calls
  induction calls with
  | nil => intro acc k hk; exact hk
  | cons n rest ih =>
    intro acc k hk
    simp only [List.foldl]
    apply ih
    cases acc with
    | error ev => exact hk
    | ok p =>
      obtain ⟨deps, vis⟩ := p
      simp only [visitedOfAcc] at hk
      simp only [buildStep]
      split
      · simpa using hk
      · rename_i depf hres
        split
        · have hmem := hrec depf vis k hk
          split <;> rename_i heq <;> rw [heq] at hmem <;> simpa using hmem
        · simpa using hk

/-- Successful runs of the dependency loop produce only records coming from
successful recursive calls (or kept from the initial accumulator). -/
theorem foldl_buildStep_depth (w : World)
    (recurse : Nat → List String → Except (PyExc × List String) (FunctionInfo × List String))
    (module : Nat) (k : Nat)
    (hrec : ∀ dep vis info v', recurse dep vis = .ok (info, v') → DepthLe k info) :
    ∀ (calls : List String) (deps0 : List FunctionInfo) (v0 : List String)
      (deps1 : List FunctionInfo) (v1 : List String),
      (∀ i ∈ deps0, DepthLe k i) →
      calls.foldl (buildStep w recurse module) (.ok (deps0, v0)) = .ok (deps1, v1) →
      ∀ i ∈ deps1, DepthLe k i := by
  intro calls
  induction calls with
  | nil =>
    intro deps0 v0 deps1 v1 h0 hfold
    simp only [List.foldl, Except.ok.injEq, Prod.mk.injEq] at hfold
    exact hfold.1 ▸ h0
  | cons n rest ih =>
    intro deps0 v0 deps1 v1 h0 hfold
    simp only [List.foldl] at hfold
    cases hstep : buildStep w recurse module (.ok (deps0, v0)) n with
    | error ev =>
      rw [hstep, foldl_buildStep_error] at hfold
      exact absurd hfold (by simp)
    | ok p =>
      obtain ⟨depsM, vM⟩ := p
      rw [hstep] at hfold
      have hM : ∀ i ∈ depsM, DepthLe k i := by
        rcases buildStep_ok_cases w recurse module deps0 v0 n depsM vM hstep with
          hsame | ⟨info, dep, hr, hd⟩
        · exact hsame ▸ h0
        · subst hd
          intro i hi
          rcases List.mem_append.1 hi with hi | hi
          · exact h0 i hi
          · simp only [List.mem_singleton] at hi
            rw [hi]
            exact hrec dep v0 info vM hr
      exact ih depsM vM deps1 v1 hM hfold

theorem splitDotAux_ne_nil : ∀ (cs acc : List Char), splitDotAux acc cs ≠ [] := by
  intro cs
  induction cs with
  | nil => intro acc; simp [splitDotAux]
  | cons c cs ih =>
    intro acc
    simp only [splitDotAux]
    split
    · simp
    · exact ih (c :: acc)

theorem splitDotAux_singleton : ∀ (cs acc : List Char) (r : String),
    splitDotAux acc cs = [r] → r = String.mk (acc.reverse ++ cs) := by
  intro cs
  induction cs with
  | nil =>
    intro acc r h
    simp only [splitDotAux, List.cons.injEq] at h
    simp [← h.1]
  | cons c cs ih =>
    intro acc r h
    simp only [splitDotAux] at h
    split at h
    · simp only [List.cons.injEq] at h
      exact absurd h.2 (splitDotAux_ne_nil cs [])
    · rename_i hc
      have hr := ih (c :: acc) r h
      rw [hr]
      simp [hc]

/-- A candidate name that splits into a single segment is the segment itself
(it contains no dot). -/
theorem splitDot_singleton (s : String) (p : String) (h : splitDot s = [p]) : p = s := by
  have := splitDotAux_singleton s.toList [] p h
  simpa [String.toList] using this

/-- The linear scan returns only bindings actually present in the scope's
dictionary, under the candidate's own key. -/
theorem scanDict_mem (w : World) (name : String) :
    ∀ (l : List (String × Nat)) (v : Nat), scanDict w name l = some v → (name, v) ∈ l := by
  intro l
  induction l with
  | nil => intro v h; simp [scanDict] at h
  | cons p rest ih =>
    intro v h
    obtain ⟨k, val⟩ := p
    simp only [scanDict] at h
    split at h
    · rename_i hcond
      simp only [Option.some.injEq] at h
      simp only [Bool.and_eq_true, beq_iff_eq] at hcond
      rw [← hcond.1, ← h]
      exact List.mem_cons_self _ _
    · exact List.mem_cons_of_mem _ (ih v h)

/-- `build` only ever grows the `visited` set (keys are added, never removed),
whether it returns normally or propagates an exception. -/
theorem build_vis_mono (w : World) :
    ∀ (fuel func max_depth current_depth : Nat) (visited : List String) (k : String),
      k ∈ visited →
      k ∈ visitedOf (build w fuel func max_depth current_depth visited) := by
  intro fuel
  induction fuel with
  | zero =>
    intro func maxD curD vis k hk
    simpa [build] using hk
  | succ n ih =>
    intro func maxD curD vis k hk
    simp only [build]
    split
    · simpa using hk
    · rename_i finfo hext
      split
      · simpa using hk
      · split
        · simpa using List.mem_cons_of_mem _ hk
        · split
          · simpa using List.mem_cons_of_mem _ hk
          · rename_i calls hfind
            have hfold := foldl_buildStep_vis_mono w
              (fun dep v2 => build w n dep maxD (curD + 1) v2) (w.getmodule func)
              (fun dep v2 k2 hk2 => ih dep maxD (curD + 1) v2 k2 hk2)
              calls (.ok ([], keyOf finfo :: vis)) k
              (by simpa using List.mem_cons_of_mem _ hk)
            split <;> rename_i heq <;> rw [heq] at hfold <;> simpa using hfold

/-- Fuel sufficiency: any fuel at least `max_depth - current_depth + 1`
produces the same result as the canonical fuel the wrapper
`build_dependency_tree` supplies — the out-of-fuel branch is invisible, so
the fueled embedding computes exactly the Python recursion. -/
theorem build_fuel_sufficient (w : World) :
    ∀ (fuel maxD curD f : Nat) (vis : List String),
      maxD - curD ≤ fuel →
      build w (fuel + 1) f maxD curD vis = build w (maxD - curD + 1) f maxD curD vis := by
  intro fuel
  induction fuel with
  | zero =>
    intro maxD curD f vis h
    rw [Nat.le_zero.mp h]
  | succ n ih =>
    intro maxD curD f vis h
    by_cases hguard : curD ≥ maxD
    · have h0 : maxD - curD = 0 := by omega
      rw [h0]
      show build w (Nat.succ (n + 1)) f maxD curD vis = build w (Nat.succ 0) f maxD curD vis
      rw [build.eq_2 w f maxD curD vis (n + 1), build.eq_2 w f maxD curD vis 0]
      cases hx : extract_function_info w f with
      | error e => rfl
      | ok finfo =>
        simp only [hx]
        by_cases hmem : keyOf finfo ∈ vis
        · simp only [if_pos hmem]
        · simp only [if_neg hmem, if_pos hguard]
    · have harith : maxD - curD = (maxD - (curD + 1)) + 1 := by omega
      have hfun : (fun dep vis2 => build w (n + 1) dep maxD (curD + 1) vis2) =
          (fun dep vis2 => build w (maxD - curD) dep maxD (curD + 1) vis2) := by
        funext dep vis2
        rw [harith]
        exact ih maxD (curD + 1) dep vis2 (by omega)
      show build w (Nat.succ (n + 1)) f maxD curD vis =
        build w (Nat.succ (maxD - curD)) f maxD curD vis
      rw [build.eq_2 w f maxD curD vis (n + 1), build.eq_2 w f maxD curD vis (maxD - curD)]
      rw [hfun]

/-- Fueled-wrapper stability: adding any extra fuel beyond what
`build_dependency_tree` supplies does not change the result. -/
theorem build_dependency_tree_fuel_stable (w : World)
    (f maxD curD extra : Nat) (vis : List String) :
    build w (maxD - curD + extra + 1) f maxD curD vis =
      build_dependency_tree w f maxD curD vis := by
  unfold build_dependency_tree
  exact build_fuel_sufficient w (maxD - curD + extra) maxD curD f vis (by omega)

/-- Depth bound: a successful `build` at depth `current_depth` returns a tree
of height at most `max_depth - current_depth`. -/
theorem build_depth (w : World) :
    ∀ (fuel func max_depth current_depth : Nat) (visited : List String)
      (info : FunctionInfo) (v' : List String),
      build w fuel func max_depth current_depth visited = .ok (info, v') →
      DepthLe (max_depth - current_depth) info := by
  intro fuel
  induction fuel with
  | zero =>
    intro func maxD curD vis info v' h
    exact absurd h (by simp [build])
  | succ n ih =>
    intro func maxD curD vis info v' h
    simp only [build] at h
    split at h
    · exact absurd h (by simp)
    · rename_i finfo hext
      split at h
      · simp only [Except.ok.injEq, Prod.mk.injEq] at h
        exact depthLe_of_deps_nil _ _ (h.1 ▸ extract_function_info_deps w func finfo hext)
      · split at h
        · simp only [Except.ok.injEq, Prod.mk.injEq] at h
          exact depthLe_of_deps_nil _ _ (h.1 ▸ extract_function_info_deps w func finfo hext)
        · rename_i hguard
          split at h
          · exact absurd h (by simp)
          · rename_i calls hfind
            split at h
            · exact absurd h (by simp)
            · rename_i heq
              simp only [Except.ok.injEq, Prod.mk.injEq] at h
              obtain ⟨h1, h2⟩ := h
              have hdeps := foldl_buildStep_depth w
                (fun dep v2 => build w n dep maxD (curD + 1) v2) (w.getmodule func)
                (maxD - (curD + 1))
                (fun dep vis2 i2 v2 hr => ih dep maxD (curD + 1) vis2 i2 v2 hr)
                calls [] (keyOf finfo :: vis) _ _ (by simp) heq
              refine h1 ▸ DepthLe.mk _ _ ?_ ?_
              · intro i hi
                omega
              · intro i hi
                rw [withDependencies_dependencies] at hi
                have heq2 : maxD - curD - 1 = maxD - (curD + 1) := by omega
                rw [heq2]
                exact hdeps i hi

/-! ### C7 : the three tiers of the Symbol Resolver -/

/-- A world used to exercise the resolver: module `100` with bindings
`f ↦ 0`, `g ↦ 1`, `obj ↦ 5`, and object `5` with attribute `meth ↦ 6`. -/
def w7 : World where
  pyName _ := ""
  getdoc _ := .ok none
  getsource _ := .error .typeError
  getfile _ := .error .typeError
  getsourcelines _ := .error .typeError
  parseDedent _ := .error .parseError
  getmodule _ := 100
  getattrO o n :=
    if o = 100 then
      if n = "f" then some 0
      else if n = "g" then some 1
      else if n = "obj" then some 5
      else none
    else if o = 5 then (if n = "meth" then some 6 else none)
    else none
  moduleDict m := if m = 100 then [("f", 0), ("g", 1), ("obj", 5)] else []
  truthy _ := true
  isCallable o := o = 0 || o = 1 || o = 6

/-- C7: For every candidate name and scope, the Symbol Resolver
(`get_function_by_name`) behaves exactly as the spec's three tiers applied in
order with the first match winning: direct lookup of the whole candidate
string, then dotted traversal (failing as soon as a segment is missing), then
the linear scan of the scope's own bindings, and not-found when all fail.
Stated as equality with `resolver_spec` (written from the spec's words), for
every scope whose attribute lookup subsumes its own dictionary — which is true
of Python module objects, where every key of `module.__dict__` is reachable
through `getattr`. -/
theorem c7_resolver_three_tiers (w : World) (module : Nat)
    (hcons : (w.moduleDict module).all (fun p => (w.getattrO module p.1).isSome) = true)
    (name : String) :
    get_function_by_name w name module = resolver_spec w name module := by
  unfold get_function_by_name resolver_spec
  cases hattr : w.getattrO module name with
  | some v => rfl
  | none =>
    have hscan : ∀ v, scanDict w name (w.moduleDict module) = some v → False := by
      intro v hv
      have hmem := scanDict_mem w name _ v hv
      rw [List.all_eq_true] at hcons
      have him := hcons (name, v) hmem
      rw [hattr] at him
      simp at him
    by_cases hlen : (splitDot name).length > 1
    · rw [if_pos hlen]
      cases hwalk : walkParts w module (splitDot name) with
      | some v => rfl
      | none =>
        cases hsc : scanDict w name (w.moduleDict module) with
        | some v => exact absurd hsc (fun h => hscan v h)
        | none => rfl
    · rw [if_neg hlen]
      obtain ⟨p, hp⟩ : ∃ p, splitDot name = [p] := by
        cases hsd : splitDot name with
        | nil => exact absurd hsd (splitDotAux_ne_nil name.toList [])
        | cons a l =>
          cases l with
          | nil => exact ⟨a, rfl⟩
          | cons b l2 =>
            exfalso
            apply hlen
            rw [hsd]
            simp only [List.length_cons]
            omega
      have hpn := splitDot_singleton name p hp
      subst hpn
      rw [hp]
      simp only [walkParts, hattr]

/-- C7 witness: the code resolver and the spec resolver agree on the concrete
world `w7`, both for a dotted and for a bare candidate name. -/
theorem c7_witness :
    get_function_by_name w7 "obj.meth" 100 = resolver_spec w7 "obj.meth" 100 ∧
    get_function_by_name w7 "f" 100 = resolver_spec w7 "f" 100 :=
  ⟨c7_resolver_three_tiers w7 100 (by decide) "obj.meth",
   c7_resolver_three_tiers w7 100 (by decide) "f"⟩

/-! ### C2 : the scanner on `def f(): g(); o.m(); (lambda: h())()` -/

/-- The source text of claim C2. -/
def src2 : String := "def f(): g(); o.m(); (lambda: h())()"

/-- The Python parse of `src2`:
`Module([FunctionDef("f", [Expr(Call(Name("g"))), Expr(Call(Attribute(Name("o"), "m"))), Expr(Call(Lambda(Call(Name("h")))))])])`. -/
def ast2 : PyStmts := stmtsOf
  [.functionDef "f" (stmtsOf
    [.exprStmt (.call (.name "g") .nil),
     .exprStmt (.call (.attr (.name "o") "m") .nil),
     .exprStmt (.call (.lam (.call (.name "h") .nil)) .nil)])]

/-- A world containing one callable `0` whose source is `src2`. -/
def w2 : World where
  pyName _ := "f"
  getdoc _ := .ok none
  getsource f := if f = 0 then .ok src2 else .error .typeError
  getfile _ := .ok "t.py"
  getsourcelines _ := .ok 1
  parseDedent s := if s = src2 then .ok ast2 else .error .parseError
  getmodule _ := 100
  getattrO _ _ := none
  moduleDict _ := []
  truthy _ := true
  isCallable f := f = 0

/-- C2 counterexample: on the source text
`def f(): g(); o.m(); (lambda: h())()` the Call-Expression Scanner does NOT
return exactly the set containing "g" and "o.m": the call to `h` inside the
lambda body is also discovered, because `generic_visit` recurses into the
`Lambda` node's body. -/
theorem c2_counterexample :
    find_function_calls w2 0 = .ok ["g", "o.m", "h"] ∧
    ¬ ((["g", "o.m", "h"] : List String).toFinset = {"g", "o.m"}) ∧
    "h" ∈ (["g", "o.m", "h"] : List String).toFinset :=
  ⟨rfl, by decide, by decide⟩

/-- C2 amended: on that source text the scanner returns exactly the set
containing "g", "o.m" and "h" — the outer call through the lambda expression
itself contributes no name (its `func` is neither a `Name` nor an
`Attribute`), but the call to `h` inside the lambda body is discovered by the
recursive traversal. -/
theorem c2_scanner_with_lambda (w : World) (func : Nat)
    (hsrc : w.getsource func = .ok src2) (hparse : w.parseDedent src2 = .ok ast2) :
    find_function_calls w func = .ok ["g", "o.m", "h"] ∧
    (["g", "o.m", "h"] : List String).toFinset = {"g", "o.m", "h"} := by
  constructor
  · have hes : extract_source w func = .ok (some src2) := by
      simp [extract_source, hsrc]
    simp only [find_function_calls, hes, hparse]
    rw [if_pos (by decide : src2 ≠ "")]
    rfl
  · decide

/-- C2 amended witness: the concrete evaluation on `w2`. -/
theorem c2_witness : find_function_calls w2 0 = .ok ["g", "o.m", "h"] :=
  (c2_scanner_with_lambda w2 0 rfl rfl).1

/-! ### C6 : scanner error handling -/

/-- A source text that `inspect.getsource` really produces — the text
returned for a lambda passed as a keyword argument on a continuation line of
a call, e.g. `use(0,\n    key=lambda: g())` — and that `ast.parse` rejects
even after `textwrap.dedent` (SyntaxError: unmatched parenthesis). -/
def srcRetLam : String := "key=lambda: g())"

/-- A world with callable `0` a C-implemented builtin (`getsource` raises
`TypeError`) and callable `1` a lambda whose extracted source text `srcRetLam`
does not parse. -/
def w6 : World where
  pyName f := if f = 0 then "blt" else "lam"
  getdoc _ := .ok none
  getsource f := if f = 0 then .error .typeError else .ok srcRetLam
  getfile f := if f = 0 then .error .typeError else .ok "m.py"
  getsourcelines f := if f = 0 then .error .typeError else .ok 9
  parseDedent _ := .error .parseError
  getmodule _ := 100
  getattrO _ _ := none
  moduleDict _ := []
  truthy _ := true
  isCallable f := f ≤ 1

/-- C6 counterexample: for a callable whose extracted source text remains
unparseable after de-indentation, `find_function_calls` does not fail safely
with the empty set: the parse error propagates out of the scanner (there is no
handler around `ast.parse`). -/
theorem c6_counterexample : find_function_calls w6 1 = .error .parseError := rfl

/-- C6 amended: when no source text can be obtained (`TypeError`, e.g. a
C-implemented or partial/bound construct) the scanner returns the empty set
rather than failing; when the dedented text parses, the scan succeeds with the
visitor's result; but when the text remains unparseable after de-indentation
the parse error propagates — the scan raises instead of returning the empty
set. -/
theorem c6_scan_error_handling :
    (∀ (w : World) (f : Nat), w.getsource f = .error .typeError →
      find_function_calls w f = .ok []) ∧
    (∀ (w : World) (f : Nat) (s : String) (tree : PyStmts),
      w.getsource f = .ok s → s ≠ "" → w.parseDedent s = .ok tree →
      find_function_calls w f = .ok (visitModule tree)) ∧
    (∀ (w : World) (f : Nat) (s : String) (e : PyExc),
      w.getsource f = .ok s → s ≠ "" → w.parseDedent s = .error e →
      find_function_calls w f = .error e) := by
  refine ⟨?_, ?_, ?_⟩
  · intro w f h
    simp [find_function_calls, extract_source, h]
  · intro w f s tree hsrc hne hparse
    simp [find_function_calls, extract_source, hsrc, hparse, hne]
  · intro w f s e hsrc hne hparse
    simp [find_function_calls, extract_source, hsrc, hparse, hne]

/-- C6 witness: the builtin-like callable of `w6` scans to the empty set; the
unparseable one raises. -/
theorem c6_witness :
    find_function_calls w6 0 = .ok [] ∧ find_function_calls w6 1 = .error .parseError :=
  ⟨c6_scan_error_handling.1 w6 0 rfl,
   c6_scan_error_handling.2.2 w6 1 srcRetLam .parseError rfl (by decide) rfl⟩

/-! ### C5 : the Function Record Builder -/

/-- Source text for the docstring-less callable of `w5` (content
irrelevant). -/
def src5 : String := "def nodoc():\n    return 0"

/-- A world with callable `0` a plain function without docstring, callable `1`
a C-implemented builtin (all source introspection raises `TypeError`), and
callable `2` a Python-level function whose source text is unavailable
(`inspect.getsource`/`getsourcelines` raise `OSError`, as they do for code
compiled from a string or a deleted file). -/
def w5 : World where
  pyName f := if f = 0 then "nodoc" else if f = 1 then "bsum" else "lostsrc"
  getdoc f := if f = 0 then .ok none else if f = 1 then .ok (some "docs") else .ok (some "d2")
  getsource f := if f = 0 then .ok src5 else if f = 1 then .error .typeError else .error .osError
  getfile f := if f = 0 then .ok "m.py" else if f = 1 then .error .typeError else .ok "gone.py"
  getsourcelines f := if f = 0 then .ok 3 else .error .typeError
  parseDedent s := if s = src5 then .ok (stmtsOf [.functionDef "nodoc" (stmtsOf [.ret (some .const)])]) else .error .parseError
  getmodule _ := 100
  getattrO _ _ := none
  moduleDict _ := []
  truthy _ := true
  isCallable f := f ≤ 2

/-- C5 counterexample: `extract_function_info` does not always produce a
record — for a Python-level callable whose source text is unavailable,
`inspect.getsource` raises `OSError`, which `extract_source` does not catch
(it catches only `TypeError`), so the error propagates out of
`extract_function_info` instead of becoming an absent field. -/
theorem c5_counterexample : extract_function_info w5 2 = .error .osError := rfl

/-- C5 amended: a FunctionRecord is produced whenever the introspection
failures encountered are `TypeError`s (the only exception class the
extractors catch): a callable with no docstring yields a record with
`docstring` absent and all other fields populated; a callable whose source
introspection raises `TypeError` (builtins, partial/bound constructs) yields
`source`, `source_file`, `line_number` absent with `name` always present.
But an `OSError` from `inspect.getsource`/`getsourcelines` propagates instead
of producing a record (see the counterexample). -/
theorem c5_record_builder (w : World) (f g : Nat) (s file : String) (ln : Nat)
    (d : Option String)
    (h1 : w.getdoc f = .ok none) (h2 : w.getsource f = .ok s)
    (h3 : w.getfile f = .ok file) (h4 : w.getsourcelines f = .ok ln)
    (h5 : w.getdoc g = .ok d) (h6 : w.getsource g = .error .typeError)
    (h7 : w.getfile g = .error .typeError) (h8 : w.getsourcelines g = .error .typeError) :
    extract_function_info w f = .ok (.mk (w.pyName f) none (some s) (some file) (some ln) []) ∧
    extract_function_info w g = .ok (.mk (w.pyName g) d none none none []) := by
  constructor <;>
    simp [extract_function_info, extract_docstring, extract_source,
      extract_source_file, extract_line_number, h1, h2, h3, h4, h5, h6, h7, h8]

/-- C5 witness: concrete records for the docstring-less and the builtin-like
callables of `w5`. -/
theorem c5_witness :
    extract_function_info w5 0 = .ok (.mk "nodoc" none (some src5) (some "m.py") (some 3) []) ∧
    extract_function_info w5 1 = .ok (.mk "bsum" (some "docs") none none none []) :=
  c5_record_builder w5 0 1 src5 "m.py" 3 (some "docs") rfl rfl rfl rfl rfl rfl rfl rfl

/-! ### C9 : unresolvable call targets are dropped silently -/

/-- C9: every scanner-discovered name that the resolver cannot map to a
(truthy) callable binding is skipped silently: the build completes with a
successful record, the name contributes no entry to `dependencies`, and no
error surfaces.  The hypothesis states that every discovered name either
resolves to nothing or to a binding that is falsy or not callable. -/
theorem c9_unresolved_names_dropped (w : World) (f maxD : Nat) (info : FunctionInfo)
    (calls : List String)
    (hext : extract_function_info w f = .ok info)
    (hfind : find_function_calls w f = .ok calls)
    (hunres : ∀ n ∈ calls,
      (Option.all (fun v => !(w.truthy v && w.isCallable v))
        (get_function_by_name w n (w.getmodule f))) = true) :
    build_dependency_tree w f maxD = .ok (info, [keyOf info]) ∧
    info.dependencies = [] := by
  have hdeps := extract_function_info_deps w f info hext
  have hunres' : ∀ n ∈ calls, ∀ v, get_function_by_name w n (w.getmodule f) = some v →
      (w.truthy v && w.isCallable v) = false := by
    intro n hn v hv
    have hx := hunres n hn
    rw [hv] at hx
    simp only [Option.all_some, Bool.not_eq_true'] at hx
    exact hx
  refine ⟨?_, hdeps⟩
  unfold build_dependency_tree
  simp only [Nat.sub_zero]
  simp only [build, hext]
  rw [if_neg (List.not_mem_nil (keyOf info))]
  by_cases hguard : 0 ≥ maxD
  · rw [if_pos hguard]
  · rw [if_neg hguard]
    simp only [hfind]
    rw [foldl_buildStep_skip w _ (w.getmodule f) calls [] [keyOf info] hunres']
    show Except.ok (info.withDependencies [], [keyOf info]) = _
    rw [withDependencies_self info hdeps]

/-- Source text of the entry function of `w9` (calls an undefined name and a
non-callable module member). -/
def src9 : String := "def main():\n    ghost()\n    data()"

/-- Parse of `src9`. -/
def ast9 : PyStmts := stmtsOf
  [.functionDef "main" (stmtsOf
    [.exprStmt (.call (.name "ghost") .nil),
     .exprStmt (.call (.name "data") .nil)])]

/-- A world whose entry function `0` calls a name with no binding in scope
(`ghost`) and a name bound to a non-callable object (`data ↦ 7`). -/
def w9 : World where
  pyName _ := "main"
  getdoc _ := .ok none
  getsource f := if f = 0 then .ok src9 else .error .typeError
  getfile _ := .ok "m.py"
  getsourcelines _ := .ok 1
  parseDedent s := if s = src9 then .ok ast9 else .error .parseError
  getmodule _ := 100
  getattrO o n := if o = 100 ∧ n = "data" then some 7 else none
  moduleDict m := if m = 100 then [("data", 7)] else []
  truthy _ := true
  isCallable o := o = 0

/-- C9 witness: the concrete build on `w9` succeeds with no dependencies. -/
theorem c9_witness :
    build_dependency_tree w9 0 2 =
      .ok (.mk "main" none (some src9) (some "m.py") (some 1) [], ["m.py:main"]) :=
  (c9_unresolved_names_dropped w9 0 2 (.mk "main" none (some src9) (some "m.py") (some 1) [])
    ["ghost", "data"] rfl rfl (by decide)).1

/-! ### C4 : the depth bound and the default depth -/

/-- C4: for every entry callable and every maximum depth `d`, no
FunctionRecord in the tree returned by
`build_dependency_tree(func, max_depth = d, current_depth = 0, visited = ∅)`
is more than `d` edges from the root; and when `max_depth` is not supplied it
defaults to `2`. -/
theorem c4_depth_bound :
    (∀ (w : World) (f d : Nat) (info : FunctionInfo) (v' : List String),
      build_dependency_tree w f d = .ok (info, v') → DepthLe d info) ∧
    (∀ (w : World) (f : Nat), build_dependency_tree w f = build_dependency_tree w f 2) := by
  constructor
  · intro w f d info v' h
    have hd := build_depth w (d - 0 + 1) f d 0 [] info v' h
    simpa using hd
  · intro w f
    rfl

/-! ### C3 : cycle safety for mutual recursion and self-calls -/

/-- C3: (a) for a mutually recursive pair `a` calling `b` and `b` calling
`a`, `build_dependency_tree(a, max_depth = 3)` terminates with the finite
tree `a[b[a-stub]]` in which the second occurrence of `a` along the path has
empty `dependencies`; (b) for a function `c` that calls itself, the
self-referential child record has empty `dependencies` regardless of
`max_depth` (for depth 0 there is no child at all). -/
theorem c3_cycle_guard :
    (∀ (w : World) (a b : Nat) (ia ib : FunctionInfo) (na nb : String),
      extract_function_info w a = .ok ia →
      extract_function_info w b = .ok ib →
      find_function_calls w a = .ok [nb] →
      find_function_calls w b = .ok [na] →
      get_function_by_name w nb (w.getmodule a) = some b →
      get_function_by_name w na (w.getmodule b) = some a →
      w.truthy b = true → w.isCallable b = true →
      w.truthy a = true → w.isCallable a = true →
      keyOf ib ≠ keyOf ia →
      build_dependency_tree w a 3 =
        .ok (ia.withDependencies [ib.withDependencies [ia]], [keyOf ib, keyOf ia]) ∧
      ia.dependencies = []) ∧
    (∀ (w : World) (c : Nat) (ic : FunctionInfo) (nc : String),
      extract_function_info w c = .ok ic →
      find_function_calls w c = .ok [nc] →
      get_function_by_name w nc (w.getmodule c) = some c →
      w.truthy c = true → w.isCallable c = true →
      (∀ d : Nat, build_dependency_tree w c (d + 1) =
        .ok (ic.withDependencies [ic], [keyOf ic])) ∧
      build_dependency_tree w c 0 = .ok (ic, [keyOf ic]) ∧
      ic.dependencies = []) := by
  constructor
  · intro w a b ia ib na nb hextA hextB hfindA hfindB hresB hresA htB hcB htA hcA hkey
    refine ⟨?_, extract_function_info_deps w a ia hextA⟩
    unfold build_dependency_tree
    show build w (3 + 1) a 3 0 [] = _
    simp [build, buildStep, hextA, hextB, hfindA, hfindB, hresA, hresB,
      htA, htB, hcA, hcB, hkey]
  · intro w c ic nc hextC hfindC hres ht hc
    refine ⟨?_, ?_, extract_function_info_deps w c ic hextC⟩
    · intro d
      unfold build_dependency_tree
      simp [build, buildStep, hextC, hfindC, hres, ht, hc]
    · unfold build_dependency_tree
      simp [build, hextC]

/-- Source of the mutually recursive pair and the self-caller of `w3`. -/
def srcA3 : String := "def a():\n    return b()"

/-- See `srcA3`. -/
def srcB3 : String := "def b():\n    return a()"

/-- See `srcA3`. -/
def srcC3 : String := "def c():\n    return c()"

/-- Parse of `srcA3`. -/
def astA3 : PyStmts := stmtsOf
  [.functionDef "a" (stmtsOf [.ret (some (.call (.name "b") .nil))])]

/-- Parse of `srcB3`. -/
def astB3 : PyStmts := stmtsOf
  [.functionDef "b" (stmtsOf [.ret (some (.call (.name "a") .nil))])]

/-- Parse of `srcC3`. -/
def astC3 : PyStmts := stmtsOf
  [.functionDef "c" (stmtsOf [.ret (some (.call (.name "c") .nil))])]

/-- A world with `a = 0` and `b = 1` mutually recursive and `c = 2` calling
itself, all bound at module `100`. -/
def w3 : World where
  pyName f := if f = 0 then "a" else if f = 1 then "b" else "c"
  getdoc _ := .ok none
  getsource f := if f = 0 then .ok srcA3 else if f = 1 then .ok srcB3 else .ok srcC3
  getfile _ := .ok "m.py"
  getsourcelines _ := .ok 1
  parseDedent s :=
    if s = srcA3 then .ok astA3
    else if s = srcB3 then .ok astB3
    else if s = srcC3 then .ok astC3
    else .error .parseError
  getmodule _ := 100
  getattrO o n :=
    if o = 100 then
      if n = "a" then some 0 else if n = "b" then some 1 else if n = "c" then some 2 else none
    else none
  moduleDict m := if m = 100 then [("a", 0), ("b", 1), ("c", 2)] else []
  truthy _ := true
  isCallable f := f ≤ 2

/-- The record extracted for `a` in `w3`. -/
def infoA3 : FunctionInfo := .mk "a" none (some srcA3) (some "m.py") (some 1) []

/-- The record extracted for `b` in `w3`. -/
def infoB3 : FunctionInfo := .mk "b" none (some srcB3) (some "m.py") (some 1) []

/-- The record extracted for `c` in `w3`. -/
def infoC3 : FunctionInfo := .mk "c" none (some srcC3) (some "m.py") (some 1) []

/-- C3 witness: concrete trees for the mutual pair (max depth 3) and the
self-caller (max depth 5) of `w3`. -/
theorem c3_witness :
    build_dependency_tree w3 0 3 =
      .ok (infoA3.withDependencies [infoB3.withDependencies [infoA3]], ["m.py:b", "m.py:a"]) ∧
    build_dependency_tree w3 2 5 =
      .ok (infoC3.withDependencies [infoC3], ["m.py:c"]) :=
  ⟨(c3_cycle_guard.1 w3 0 1 infoA3 infoB3 "a" "b" rfl rfl rfl rfl rfl rfl rfl rfl rfl rfl
      (by decide)).1,
   (c3_cycle_guard.2 w3 2 infoC3 "c" rfl rfl rfl rfl rfl).1 4⟩

/-- C4 witness: the tree built for the mutually recursive pair of `w3` at
max depth 3 satisfies the depth bound. -/
theorem c4_witness :
    DepthLe 3 (infoA3.withDependencies [infoB3.withDependencies [infoA3]]) :=
  c4_depth_bound.1 w3 0 3 (infoA3.withDependencies [infoB3.withDependencies [infoA3]])
    ["m.py:b", "m.py:a"] rfl

/-! ### C1 : what is (and is not) caught at the point of recursion -/

/-- Source of the entry function `p` of `w1`, calling `bad` then `good`. -/
def srcP1 : String := "def p():\n    bad()\n    good()"

/-- Parse of `srcP1`. -/
def astP1 : PyStmts := stmtsOf
  [.functionDef "p" (stmtsOf
    [.exprStmt (.call (.name "bad") .nil),
     .exprStmt (.call (.name "good") .nil)])]

/-- Source of the entry function `q` of `w1`, calling `oserr` then `good`. -/
def srcQ1 : String := "def q():\n    oserr()\n    good()"

/-- Parse of `srcQ1`. -/
def astQ1 : PyStmts := stmtsOf
  [.functionDef "q" (stmtsOf
    [.exprStmt (.call (.name "oserr") .nil),
     .exprStmt (.call (.name "good") .nil)])]

/-- Source of the well-behaved dependency `good` of `w1`. -/
def srcGood1 : String := "def good():\n    return 1"

/-- Parse of `srcGood1`. -/
def astGood1 : PyStmts := stmtsOf
  [.functionDef "good" (stmtsOf [.ret (some .const)])]

/-- The source text `inspect.getsource` produces for the dependency `bad` of
`w1` (a module-level binding to a lambda passed as a keyword argument on a
continuation line): `ast.parse` rejects it even after dedent (unmatched
parenthesis). -/
def srcBad1 : String := "key=lambda: x())"

/-- A world with two entry functions: `p = 0` calls `bad = 1` (whose source
does not parse: SyntaxError) and `good = 2`; `q = 3` calls `oserr = 4` (whose
source introspection raises OSError) and `good`. -/
def w1 : World where
  pyName f :=
    if f = 0 then "p" else if f = 1 then "bad" else if f = 2 then "good"
    else if f = 3 then "q" else "oserr"
  getdoc _ := .ok none
  getsource f :=
    if f = 0 then .ok srcP1 else if f = 1 then .ok srcBad1 else if f = 2 then .ok srcGood1
    else if f = 3 then .ok srcQ1 else .error .osError
  getfile _ := .ok "a.py"
  getsourcelines _ := .ok 1
  parseDedent s :=
    if s = srcP1 then .ok astP1
    else if s = srcQ1 then .ok astQ1
    else if s = srcGood1 then .ok astGood1
    else .error .parseError
  getmodule _ := 100
  getattrO o n :=
    if o = 100 then
      if n = "p" then some 0 else if n = "bad" then some 1 else if n = "good" then some 2
      else if n = "q" then some 3 else if n = "oserr" then some 4 else none
    else none
  moduleDict m :=
    if m = 100 then [("p", 0), ("bad", 1), ("good", 2), ("q", 3), ("oserr", 4)] else []
  truthy _ := true
  isCallable f := f ≤ 4

/-- C1 counterexample: not every failure raised while analyzing one dependency
is caught — the `except` clause names only `OSError` and `TypeError`, so the
SyntaxError raised when parsing the source of dependency `bad` propagates and
aborts the analysis of the parent `p` and of the sibling `good` (which never
gets analyzed). -/
theorem c1_counterexample :
    build_dependency_tree w1 0 2 = .error (.parseError, ["a.py:bad", "a.py:p"]) := rfl

/-- C1 amended: failures of type `OSError` or `TypeError` raised while
recursively analyzing a single dependency are caught at the point of
recursion; that dependency alone is skipped (it contributes no entry to the
parent's dependencies) and the analysis of the sibling dependencies and of
the parent completes normally.  Any other exception (e.g. a SyntaxError from
parsing the dependency's source) propagates and aborts the whole analysis
(see the counterexample).  Stated here for an entry function whose first
dependency raises `OSError` during metadata extraction and whose second
dependency analyzes cleanly. -/
theorem c1_dependency_failures (w : World) (p bad good module : Nat)
    (nBad nGood : String) (pInfo goodInfo : FunctionInfo)
    (hmod : w.getmodule p = module)
    (hext : extract_function_info w p = .ok pInfo)
    (hfind : find_function_calls w p = .ok [nBad, nGood])
    (hresB : get_function_by_name w nBad module = some bad)
    (htB : w.truthy bad = true) (hcB : w.isCallable bad = true)
    (hbad : extract_function_info w bad = .error .osError)
    (hresG : get_function_by_name w nGood module = some good)
    (htG : w.truthy good = true) (hcG : w.isCallable good = true)
    (hextG : extract_function_info w good = .ok goodInfo)
    (hfindG : find_function_calls w good = .ok [])
    (hkey : keyOf goodInfo ≠ keyOf pInfo) :
    build_dependency_tree w p 2 =
      .ok (pInfo.withDependencies [goodInfo], [keyOf goodInfo, keyOf pInfo]) := by
  have hgd := extract_function_info_deps w good goodInfo hextG
  unfold build_dependency_tree
  show build w (2 + 1) p 2 0 [] = _
  simp [build, buildStep, hmod, hext, hfind, hresB, htB, hcB, hbad,
    hresG, htG, hcG, hextG, hfindG, hkey, withDependencies_self goodInfo hgd]

/-- The record extracted for `q` in `w1`. -/
def infoQ1 : FunctionInfo := .mk "q" none (some srcQ1) (some "a.py") (some 1) []

/-- The record extracted for `good` in `w1`. -/
def infoGood1 : FunctionInfo := .mk "good" none (some srcGood1) (some "a.py") (some 1) []

/-- C1 amended witness: building `q` of `w1` skips the OSError-raising
dependency `oserr` and still analyzes the sibling `good`. -/
theorem c1_witness :
    build_dependency_tree w1 3 2 =
      .ok (infoQ1.withDependencies [infoGood1], ["a.py:good", "a.py:q"]) :=
  c1_dependency_failures w1 3 4 2 100 "oserr" "good" infoQ1 infoGood1
    rfl rfl rfl rfl rfl rfl rfl rfl rfl rfl rfl rfl (by decide)

/-! ### C8 : end-to-end scenario with `add` and `recursive_multiply` -/

/-- Source of the module-level variant of `add` (the body of
`src/examples/sync_suite.py`). -/
def srcAdd8 : String :=
  "def add(a, b):\n    while b != 0:\n        carry = a & b\n        a = a ^ b\n        b = carry << 1\n    return a"

/-- Parse of `srcAdd8`: a while loop of assignments over binary operators and
a return — no calls anywhere. -/
def astAdd8 : PyStmts := stmtsOf
  [.functionDef "add" (stmtsOf
    [.whileS (.compare (.name "b") (.cons .const .nil)) (stmtsOf
      [.assign (.cons (.name "carry") .nil) (.binop (.name "a") (.name "b")),
       .assign (.cons (.name "a") .nil) (.binop (.name "a") (.name "b")),
       .assign (.cons (.name "b") .nil) (.binop (.name "carry") .const)]),
     .ret (some (.name "a"))])]

/-- Source of the module-level variant of `recursive_multiply` (the body of
`src/examples/sync_suite.py`). -/
def srcRm8 : String :=
  "def recursive_multiply(a, b):\n    if b == 0:\n        return 0\n    elif b < 0:\n        return -recursive_multiply(a, -b)\n    elif b == 1:\n        return a\n    else:\n        half = recursive_multiply(a, b // 3)\n        if b % 2 == 0:\n            return add(half, half)\n        else:\n            return add(add(half, half), a)"

/-- Parse of `srcRm8`: calls `recursive_multiply` (itself) and `add`. -/
def astRm8 : PyStmts := stmtsOf
  [.functionDef "recursive_multiply" (stmtsOf
    [.ifS (.compare (.name "b") (.cons .const .nil))
      (stmtsOf [.ret (some .const)])
      (stmtsOf
        [.ifS (.compare (.name "b") (.cons .const .nil))
          (stmtsOf [.ret (some (.unary (.call (.name "recursive_multiply")
            (exprsOf [.name "a", .unary (.name "b")]))))])
          (stmtsOf
            [.ifS (.compare (.name "b") (.cons .const .nil))
              (stmtsOf [.ret (some (.name "a"))])
              (stmtsOf
                [.assign (.cons (.name "half") .nil)
                  (.call (.name "recursive_multiply")
                    (exprsOf [.name "a", .binop (.name "b") .const])),
                 .ifS (.compare (.binop (.name "b") .const) (.cons .const .nil))
                   (stmtsOf [.ret (some (.call (.name "add")
                     (exprsOf [.name "half", .name "half"])))])
                   (stmtsOf [.ret (some (.call (.name "add")
                     (exprsOf [.call (.name "add") (exprsOf [.name "half", .name "half"]),
                       .name "a"])))])])])])])]

/-- A world with the module-level pair `recursive_multiply = 0` and
`add = 1`, both bound in module `100`. -/
def w8 : World where
  pyName f := if f = 0 then "recursive_multiply" else "add"
  getdoc _ := .ok none
  getsource f := if f = 0 then .ok srcRm8 else .ok srcAdd8
  getfile _ := .ok "s.py"
  getsourcelines f := if f = 0 then .ok 10 else .ok 1
  parseDedent s :=
    if s = srcRm8 then .ok astRm8
    else if s = srcAdd8 then .ok astAdd8
    else .error .parseError
  getmodule _ := 100
  getattrO o n :=
    if o = 100 then
      if n = "recursive_multiply" then some 0 else if n = "add" then some 1 else none
    else none
  moduleDict m := if m = 100 then [("recursive_multiply", 0), ("add", 1)] else []
  truthy _ := true
  isCallable f := f ≤ 1

/-- The record extracted for `recursive_multiply` in `w8`. -/
def infoRm8 : FunctionInfo :=
  .mk "recursive_multiply" none (some srcRm8) (some "s.py") (some 10) []

/-- The record extracted for `add` in `w8`. -/
def infoAdd8 : FunctionInfo := .mk "add" none (some srcAdd8) (some "s.py") (some 1) []

/-- C8 counterexample: `build_dependency_tree(recursive_multiply, max_depth=2)`
does NOT return a record with exactly one dependency named "add": since
`recursive_multiply` calls itself, the scanner also discovers
"recursive_multiply", which resolves to the entry function itself; its key is
already in the visited set, so the cycle guard returns a stub record that is
nevertheless appended — the dependencies contain two records, not one. -/
theorem c8_counterexample :
    build_dependency_tree w8 0 2 =
      .ok (infoRm8.withDependencies [infoRm8, infoAdd8],
        ["s.py:add", "s.py:recursive_multiply"]) ∧
    (infoRm8.withDependencies [infoRm8, infoAdd8]).dependencies.map FunctionInfo.name =
      ["recursive_multiply", "add"] ∧
    ¬ ((infoRm8.withDependencies [infoRm8, infoAdd8]).dependencies.map FunctionInfo.name =
      ["add"]) ∧
    (infoRm8.withDependencies [infoRm8, infoAdd8]).dependencies.length ≠ 1 :=
  ⟨rfl, rfl, by decide, by decide⟩

/-- C8 amended: `build_dependency_tree(recursive_multiply, max_depth=2)`
returns a record named "recursive_multiply" whose dependencies contain
exactly two records: a stub named "recursive_multiply" with empty
dependencies (the self-call, cut off by the visited set) and a record named
"add" whose own dependencies list is empty (`add` contains no calls). -/
theorem c8_end_to_end :
    build_dependency_tree w8 0 2 =
      .ok (infoRm8.withDependencies [infoRm8, infoAdd8],
        ["s.py:add", "s.py:recursive_multiply"]) ∧
    infoRm8.name = "recursive_multiply" ∧ infoRm8.dependencies = [] ∧
    infoAdd8.name = "add" ∧ infoAdd8.dependencies = [] :=
  ⟨rfl, rfl, rfl, rfl, rfl⟩

/-! ### C10 : the shared visited set -/

@[simp] theorem keyOf_withDependencies (i : FunctionInfo) (deps : List FunctionInfo) :
    keyOf (i.withDependencies deps) = keyOf i := by
  cases i; rfl

/-- Sources of the diamond call graph of `w10`: `a` calls `b` and `c`, both
`b` and `c` call `d`, and `d` calls `e`. -/
def srcA10 : String := "def a():\n    b()\n    c()"

/-- See `srcA10`. -/
def srcB10 : String := "def b():\n    d()"

/-- See `srcA10`. -/
def srcC10 : String := "def c():\n    d()"

/-- See `srcA10`. -/
def srcD10 : String := "def d():\n    e()"

/-- See `srcA10`. -/
def srcE10 : String := "def e():\n    return 0"

/-- Parse of `srcA10`. -/
def astA10 : PyStmts := stmtsOf
  [.functionDef "a" (stmtsOf
    [.exprStmt (.call (.name "b") .nil), .exprStmt (.call (.name "c") .nil)])]

/-- Parse of `srcB10`. -/
def astB10 : PyStmts := stmtsOf
  [.functionDef "b" (stmtsOf [.exprStmt (.call (.name "d") .nil)])]

/-- Parse of `srcC10`. -/
def astC10 : PyStmts := stmtsOf
  [.functionDef "c" (stmtsOf [.exprStmt (.call (.name "d") .nil)])]

/-- Parse of `srcD10`. -/
def astD10 : PyStmts := stmtsOf
  [.functionDef "d" (stmtsOf [.exprStmt (.call (.name "e") .nil)])]

/-- Parse of `srcE10`. -/
def astE10 : PyStmts := stmtsOf
  [.functionDef "e" (stmtsOf [.ret (some .const)])]

/-- The diamond world: `a = 0` calls `b = 1` and `c = 2`, both call `d = 3`,
which calls `e = 4`; all bound in module `100`. -/
def w10 : World where
  pyName f :=
    if f = 0 then "a" else if f = 1 then "b" else if f = 2 then "c"
    else if f = 3 then "d" else "e"
  getdoc _ := .ok none
  getsource f :=
    if f = 0 then .ok srcA10 else if f = 1 then .ok srcB10 else if f = 2 then .ok srcC10
    else if f = 3 then .ok srcD10 else .ok srcE10
  getfile _ := .ok "x.py"
  getsourcelines _ := .ok 1
  parseDedent s :=
    if s = srcA10 then .ok astA10
    else if s = srcB10 then .ok astB10
    else if s = srcC10 then .ok astC10
    else if s = srcD10 then .ok astD10
    else if s = srcE10 then .ok astE10
    else .error .parseError
  getmodule _ := 100
  getattrO o n :=
    if o = 100 then
      if n = "a" then some 0 else if n = "b" then some 1 else if n = "c" then some 2
      else if n = "d" then some 3 else if n = "e" then some 4 else none
    else none
  moduleDict m :=
    if m = 100 then [("a", 0), ("b", 1), ("c", 2), ("d", 3), ("e", 4)] else []
  truthy _ := true
  isCallable f := f ≤ 4

/-- The record extracted for `a` in `w10`. -/
def infoA10 : FunctionInfo := .mk "a" none (some srcA10) (some "x.py") (some 1) []

/-- The record extracted for `b` in `w10`. -/
def infoB10 : FunctionInfo := .mk "b" none (some srcB10) (some "x.py") (some 1) []

/-- The record extracted for `c` in `w10`. -/
def infoC10 : FunctionInfo := .mk "c" none (some srcC10) (some "x.py") (some 1) []

/-- The record extracted for `d` in `w10`. -/
def infoD10 : FunctionInfo := .mk "d" none (some srcD10) (some "x.py") (some 1) []

/-- The record extracted for `e` in `w10`. -/
def infoE10 : FunctionInfo := .mk "e" none (some srcE10) (some "x.py") (some 1) []

/-- C10: the single visited set shared across the whole recursion (i) only
grows — every key present on entry is still present when the call returns or
raises; (ii) every successfully analyzed record leaves its
`source_file:name` key in the set; (iii) a record whose key is already in the
set is returned immediately as a stub with empty dependencies and the set
unchanged — so each key is expanded at most once per top-level call; and
(iv) concretely, in the diamond `a → b,c`, `b → d`, `c → d`, `d → e`, the
second occurrence of `d` — in the sibling subtree under `c`, not on the first
path — is appended as a stub with empty dependencies, while the first
occurrence under `b` was expanded with its dependency `e`. -/
theorem c10_visited_set_invariants :
    (∀ (w : World) (fuel f maxD curD : Nat) (vis : List String) (k : String),
      k ∈ vis → k ∈ visitedOf (build w fuel f maxD curD vis)) ∧
    (∀ (w : World) (fuel f maxD curD : Nat) (vis : List String) (info : FunctionInfo)
      (v' : List String),
      build w fuel f maxD curD vis = .ok (info, v') → keyOf info ∈ v') ∧
    (∀ (w : World) (fuel f maxD curD : Nat) (vis : List String) (info : FunctionInfo),
      extract_function_info w f = .ok info → keyOf info ∈ vis →
      build w (fuel + 1) f maxD curD vis = .ok (info, vis) ∧ info.dependencies = []) ∧
    build_dependency_tree w10 0 3 =
      .ok (infoA10.withDependencies
            [infoB10.withDependencies [infoD10.withDependencies [infoE10]],
             infoC10.withDependencies [infoD10]],
           ["x.py:c", "x.py:e", "x.py:d", "x.py:b", "x.py:a"]) := by
  refine ⟨build_vis_mono, ?_, ?_, rfl⟩
  · intro w fuel f maxD curD vis info v' h
    match fuel with
    | 0 => exact absurd h (by simp [build])
    | fuel + 1 =>
      simp only [build] at h
      split at h
      · exact absurd h (by simp)
      · rename_i finfo hext
        split at h
        · rename_i hmem
          simp only [Except.ok.injEq, Prod.mk.injEq] at h
          rw [← h.1, ← h.2]
          exact hmem
        · split at h
          · simp only [Except.ok.injEq, Prod.mk.injEq] at h
            rw [← h.1, ← h.2]
            exact List.mem_cons_self _ _
          · split at h
            · exact absurd h (by simp)
            · rename_i calls hfind
              split at h
              · exact absurd h (by simp)
              · rename_i heq
                simp only [Except.ok.injEq, Prod.mk.injEq] at h
                have hm := foldl_buildStep_vis_mono w
                  (fun dep v2 => build w fuel dep maxD (curD + 1) v2) (w.getmodule f)
                  (fun dep v2 k2 hk2 => build_vis_mono w fuel dep maxD (curD + 1) v2 k2 hk2)
                  calls (.ok ([], keyOf finfo :: vis)) (keyOf finfo)
                  (by simp)
                rw [heq] at hm
                rw [← h.1, ← h.2]
                simpa using hm
  · intro w fuel f maxD curD vis info hext hmem
    refine ⟨?_, extract_function_info_deps w f info hext⟩
    simp only [build, hext]
    rw [if_pos hmem]

/-- C10 witness: the stub behavior at a concrete visited-set hit, and growth
of a concrete visited set. -/
theorem c10_witness :
    build w10 1 3 3 2 ["x.py:d"] = .ok (infoD10, ["x.py:d"]) ∧
    "x.py:q" ∈ visitedOf (build w10 2 4 3 0 ["x.py:q"]) :=
  ⟨(c10_visited_set_invariants.2.2.1 w10 0 3 3 2 ["x.py:d"] infoD10 rfl (by decide)).1,
   c10_visited_set_invariants.1 w10 2 4 3 0 ["x.py:q"] "x.py:q" (by decide)⟩

end Suite
